import Mathlib

/-!
Shallow embedding of the BroadenAgentic core (app/core) in Lean 4.

Conventions of the embedding:
* Python floats are modelled as rationals (`ℚ`); the numeric claims under
  check are exact-arithmetic claims (incremental means, weighted means).
* Python values flowing through the constraint validator are modelled by
  the inductive type `PyVal`.  Python `bool` is a subclass of `int`, so
  `isinstance(True, int)` is true; the `isinstance` helpers below encode
  that.
* Fallible Python code is modelled with `Except`; an uncaught exception is
  an `Except.error` carrying the message.
* The regular-expression engine (`re.match`) is an opaque parameter: a
  function `String → String → Except Unit Bool` where `Except.error ()`
  models `re.error` being raised and `Except.ok b` models a match result.
  All theorems about the validator hold for every engine.
-/

/-- Model of a Python value as it flows through the constraint validator.
Dict keys in this code base are strings. -/
inductive PyVal : Type where
  | none : PyVal
  | bool : Bool → PyVal
  | int : Int → PyVal
  | float : ℚ → PyVal
  | str : String → PyVal
  | list : List PyVal → PyVal
  | dict : List (String × PyVal) → PyVal

/-- `data is None`. -/
def PyVal.isNone : PyVal → Bool
  | .none => true
  | _ => false

/-- `isinstance(data, str)`. -/
def PyVal.isStr : PyVal → Bool
  | .str _ => true
  | _ => false

/-- `isinstance(data, bool)`. -/
def PyVal.isBool : PyVal → Bool
  | .bool _ => true
  | _ => false

/-- `isinstance(data, int)`: true for ints AND bools (Python `bool` is a
subclass of `int`), false for floats. -/
def PyVal.isInstInt : PyVal → Bool
  | .int _ => true
  | .bool _ => true
  | _ => false

/-- `isinstance(data, float)`: true exactly for floats. -/
def PyVal.isInstFloat : PyVal → Bool
  | .float _ => true
  | _ => false

/-- `isinstance(data, list)`. -/
def PyVal.isList : PyVal → Bool
  | .list _ => true
  | _ => false

/-- `isinstance(data, dict)`. -/
def PyVal.isDict : PyVal → Bool
  | .dict _ => true
  | _ => false

/-- Numeric view used by `isinstance(data, (int, float))` guarded code:
ints, bools (as 0/1) and floats carry a numeric value. -/
def PyVal.toNum : PyVal → Option ℚ
  | .int n => some (n : ℚ)
  | .bool b => some (if b then 1 else 0)
  | .float q => some q
  | _ => Option.none

mutual

/-- Structural equality on `PyVal` (used as the non-numeric part of
Python `==`). -/
def PyVal.beq : PyVal → PyVal → Bool
  | .none, .none => true
  | .bool a, .bool b => a == b
  | .int a, .int b => a == b
  | .float a, .float b => a == b
  | .str a, .str b => a == b
  | .list as, .list bs => PyVal.beqList as bs
  | .dict as, .dict bs => PyVal.beqKvs as bs
  | _, _ => false

/-- Elementwise `PyVal.beq` on lists. -/
def PyVal.beqList : List PyVal → List PyVal → Bool
  | [], [] => true
  | a :: as, b :: bs => PyVal.beq a b && PyVal.beqList as bs
  | _, _ => false

/-- Elementwise `PyVal.beq` on string-keyed pair lists. -/
def PyVal.beqKvs : List (String × PyVal) → List (String × PyVal) → Bool
  | [], [] => true
  | (k, a) :: as, (l, b) :: bs => k == l && PyVal.beq a b && PyVal.beqKvs as bs
  | _, _ => false

end

/-- Python `==` on the values occurring here: numbers compare numerically
across int/bool/float; other values compare structurally.  (Nested
containers are compared structurally; no claim exercises nested
cross-type numeric equality.) -/
def PyVal.pyEq (a b : PyVal) : Bool :=
  match a.toNum, b.toNum with
  | some x, some y => decide (x = y)
  | _, _ => PyVal.beq a b

/-- Python `x in xs` over a list, via `PyVal.pyEq`. -/
def PyVal.pyMem (x : PyVal) (xs : List PyVal) : Bool :=
  xs.any (fun y => PyVal.pyEq x y)

/-- `len(data)` for values exposing `__len__` (str, list, dict);
`Option.none` for sizeless values (`hasattr(data, '__len__')` false). -/
def PyVal.pyLen : PyVal → Option Nat
  | .str s => some s.length
  | .list xs => some xs.length
  | .dict kvs => some kvs.length
  | _ => Option.none

/-- `str(value)` as used inside error messages.  Containers are rendered
in a simplified way; only message non-emptiness is relied upon. -/
def PyVal.pyStr : PyVal → String
  | .none => "None"
  | .bool b => if b then "True" else "False"
  | .int n => toString n
  | .float q => toString q
  | .str s => s
  | .list _ => "[...]"
  | .dict _ => "{...}"

/-- Opaque model of `re.match(pattern, data)`: `Except.error ()` models
`re.error` being raised, `Except.ok b` a completed match test. -/
def RegexEngine : Type := String → String → Except Unit Bool

/-- `InputTypeConstraint` (app/core/constraint/input.py): the declarative
shape of one named field.  `custom_validator` is never read by
`validate`/`get_error_message` and is omitted. -/
structure InputTypeConstraint : Type where
  name : String
  data_type : String
  required : Bool
  min_length : Option Nat
  max_length : Option Nat
  pattern : Option String
  allowed_values : Option (List PyVal)
  min_value : Option ℚ
  max_value : Option ℚ

namespace InputTypeConstraint

/-- `_check_type` (input.py lines 75-100): the `type_map` lookup followed
by `isinstance`.  For `float` the expected type is the tuple
`(int, float)`; unknown types are skipped (`return True`). -/
def checkType (c : InputTypeConstraint) (v : PyVal) : Bool :=
  match c.data_type with
  | "string" => v.isStr
  | "integer" => v.isInstInt
  | "float" => v.isInstInt || v.isInstFloat
  | "boolean" => v.isBool
  | "array" => v.isList
  | "object" => v.isDict
  | "image" => v.isStr
  | "audio" => v.isStr
  | "video" => v.isStr
  | "file" => v.isStr
  | "url" => v.isStr
  | "email" => v.isStr
  | "phone" => v.isStr
  | _ => true

/-- `_check_length` (input.py lines 102-117): skipped for sizeless values;
each bound is checked only when the field `is not None`. -/
def checkLength (c : InputTypeConstraint) (v : PyVal) : Bool :=
  match v.pyLen with
  | Option.none => true
  | some len =>
    if (match c.min_length with
       | some m => decide (len < m)
       | Option.none => false) then false
    else if (match c.max_length with
       | some m => decide (m < len)
       | Option.none => false) then false
    else true

/-- `_check_pattern` (input.py lines 119-132).  Returns an `Except` to
reflect the Python call into `re`; the `except re.error` clause maps the
engine error to `return False`, so the result is always `Except.ok`. -/
def checkPatternE (re : RegexEngine) (c : InputTypeConstraint) (v : PyVal) :
    Except Unit Bool :=
  match c.pattern, v with
  | some p, .str s =>
    if p = "" then Except.ok true  -- `if not self.pattern` : empty pattern is falsy
    else
      match re p s with
      | Except.ok b => Except.ok b
      | Except.error _ => Except.ok false  -- `except re.error: return False`
  | _, _ => Except.ok true

/-- `_check_pattern` as the boolean the callers observe. -/
def checkPattern (re : RegexEngine) (c : InputTypeConstraint) (v : PyVal) : Bool :=
  match checkPatternE re c v with
  | Except.ok b => b
  | Except.error _ => false

/-- `_check_value_range` (input.py lines 134-147): applies only to
`isinstance(data, (int, float))` values (bools included, compared as 0/1). -/
def checkValueRange (c : InputTypeConstraint) (v : PyVal) : Bool :=
  match v.toNum with
  | Option.none => true
  | some q =>
    if (match c.min_value with
       | some m => decide (q < m)
       | Option.none => false) then false
    else if (match c.max_value with
       | some m => decide (m < q)
       | Option.none => false) then false
    else true

/-- `_check_allowed_values` (input.py lines 149-158): skipped when
`allowed_values` is falsy (None or the empty list). -/
def checkAllowedValues (c : InputTypeConstraint) (v : PyVal) : Bool :=
  match c.allowed_values with
  | Option.none => true
  | some [] => true
  | some xs => PyVal.pyMem v xs

/-- Body of `validate` (input.py lines 37-73) before the outer
`try/except`: the check sequence with its early returns.  An
`Except.error` would model an exception escaping the checks. -/
def validateBody (re : RegexEngine) (c : InputTypeConstraint) (v : PyVal) :
    Except Unit Bool :=
  if c.required && v.isNone then Except.ok false
  else if v.isNone then Except.ok true
  else if ¬ checkType c v then Except.ok false
  else if ¬ checkLength c v then Except.ok false
  else
    match checkPatternE re c v with
    | Except.error e => Except.error e  -- an uncaught exception would propagate
    | Except.ok ok =>
      if ¬ ok then Except.ok false
      else if ¬ checkValueRange c v then Except.ok false
      else if ¬ checkAllowedValues c v then Except.ok false
      else Except.ok true

/-- `validate` (input.py lines 37-73): the body wrapped in the outer
`try/except Exception: return False`. -/
def validate (re : RegexEngine) (c : InputTypeConstraint) (v : PyVal) : Bool :=
  match validateBody re c v with
  | Except.ok b => b
  | Except.error _ => false

/-- Python truthiness of an optional length bound (`if self.min_length`):
`None` and `0` are falsy. -/
def truthyNat : Option Nat → Bool
  | Option.none => false
  | some n => n ≠ 0

/-- Python truthiness of an optional numeric bound: `None` and `0`/`0.0`
are falsy. -/
def truthyQ : Option ℚ → Bool
  | Option.none => false
  | some q => q ≠ 0

/-- Last two steps of the `get_error_message` chain: allowed values, then
the generic fallback message of input.py line 193. -/
def errLast (c : InputTypeConstraint) (v : PyVal) : String :=
  if ¬ checkAllowedValues c v then
    "字段 " ++ c.name ++ " 值应为: "
      ++ String.intercalate ", " (((c.allowed_values).getD []).map PyVal.pyStr)
  else "字段 " ++ c.name ++ " 验证失败"

/-- Tail of the `get_error_message` chain from the pattern check on, with
the Python fall-through when an inner `if/elif` chain matches nothing. -/
def errTail (re : RegexEngine) (c : InputTypeConstraint) (v : PyVal) : String :=
  if ¬ checkPattern re c v then "字段 " ++ c.name ++ " 格式不正确"
  else if ¬ checkValueRange c v then
    if truthyQ c.min_value && truthyQ c.max_value then
      "字段 " ++ c.name ++ " 值应在 " ++ toString (c.min_value.getD 0) ++ "-"
        ++ toString (c.max_value.getD 0) ++ " 之间"
    else if truthyQ c.min_value then
      "字段 " ++ c.name ++ " 值应不少于 " ++ toString (c.min_value.getD 0)
    else if truthyQ c.max_value then
      "字段 " ++ c.name ++ " 值应不超过 " ++ toString (c.max_value.getD 0)
    else errLast c v
  else errLast c v

/-- The message chain of `get_error_message` (input.py lines 165-193)
after `validate` has returned False: first applicable message. -/
def errChain (re : RegexEngine) (c : InputTypeConstraint) (v : PyVal) : String :=
  if c.required && v.isNone then "字段 " ++ c.name ++ " 是必需的"
  else if ¬ checkType c v then
    "字段 " ++ c.name ++ " 类型错误，期望 " ++ c.data_type
  else if ¬ checkLength c v then
    if truthyNat c.min_length && truthyNat c.max_length then
      "字段 " ++ c.name ++ " 长度应在 " ++ toString (c.min_length.getD 0) ++ "-"
        ++ toString (c.max_length.getD 0) ++ " 之间"
    else if truthyNat c.min_length then
      "字段 " ++ c.name ++ " 长度应不少于 " ++ toString (c.min_length.getD 0)
    else if truthyNat c.max_length then
      "字段 " ++ c.name ++ " 长度应不超过 " ++ toString (c.max_length.getD 0)
    else errTail re c v
  else errTail re c v

/-- `get_error_message` (input.py lines 160-193): `None` when `validate`
passes, else the first applicable human-readable message. -/
def getErrorMessage (re : RegexEngine) (c : InputTypeConstraint) (v : PyVal) :
    Option String :=
  if validate re c v then Option.none
  else some (errChain re c v)

end InputTypeConstraint

/-- `dict[key] = value` on an association list: overwrite if the key is
present, else append (Python dict insertion order). -/
def dictInsert {α : Type} (kvs : List (String × α)) (k : String) (v : α) :
    List (String × α) :=
  if kvs.any (fun kv => kv.1 == k) then
    kvs.map (fun kv => if kv.1 == k then (k, v) else kv)
  else kvs ++ [(k, v)]

/-- `data.get(key)`: a missing field is read as the value `None`. -/
def dictGet (kvs : List (String × PyVal)) (k : String) : PyVal :=
  match kvs.lookup k with
  | some v => v
  | Option.none => PyVal.none

namespace InputConstraintSet

/-- `InputConstraintSet.validate` (input.py lines 200-208): the per-field
result dict (later constraints with the same name overwrite earlier
results, as Python dict assignment does). -/
def validateAll (re : RegexEngine) (constraints : List InputTypeConstraint)
    (data : List (String × PyVal)) : List (String × Bool) :=
  constraints.foldl
    (fun results c =>
      dictInsert results c.name (InputTypeConstraint.validate re c (dictGet data c.name)))
    []

/-- `InputConstraintSet.is_valid` (input.py lines 222-224). -/
def isValid (re : RegexEngine) (constraints : List InputTypeConstraint)
    (data : List (String × PyVal)) : Bool :=
  (validateAll re constraints data).all (fun kv => kv.2)

/-- `InputConstraintSet.get_all_errors` (input.py lines 210-220). -/
def getAllErrors (re : RegexEngine) (constraints : List InputTypeConstraint)
    (data : List (String × PyVal)) : List String :=
  constraints.filterMap
    (fun c => InputTypeConstraint.getErrorMessage re c (dictGet data c.name))

end InputConstraintSet

/-- Type compatibility as the spec words it (§4.1): float accepts integer
and real values, every other scalar kind requires an exact type match,
sequence/mapping kinds require exactly a sequence/mapping, and the
string-shaped semantic kinds require exactly a string. -/
def TypeOkSpec : String → PyVal → Bool
  | "string", v => v.isStr
  | "integer", v => (match v with | .int _ => true | _ => false)
  | "float", v => (match v with | .int _ => true | .float _ => true | _ => false)
  | "boolean", v => v.isBool
  | "array", v => v.isList
  | "object", v => v.isDict
  | _, v => v.isStr

/-- The valid `data_type` tags accepted by the pydantic validator
(input.py lines 26-35). -/
def validDataTypes : List String :=
  ["string", "integer", "float", "boolean", "array", "object",
   "image", "audio", "video", "file", "url", "email", "phone"]

/-- A constraint declaring an integer field (everything else default). -/
def intCon : InputTypeConstraint :=
  ⟨"n", "integer", true, Option.none, Option.none, Option.none,
   Option.none, Option.none, Option.none⟩

/-- Claim C4 (counterexample): `_check_type` on `data_type = "integer"`
accepts the boolean `True` (Python `bool` is a subclass of `int`), while
the claim demands an exact type match for integer; so the claim as stated
is false. -/
theorem c4_counterexample :
    InputTypeConstraint.checkType intCon (PyVal.bool true) = true ∧
    TypeOkSpec "integer" (PyVal.bool true) = false ∧
    ¬ (∀ (c : InputTypeConstraint) (v : PyVal),
        InputTypeConstraint.checkType c v = TypeOkSpec c.data_type v) := by
  refine ⟨rfl, rfl, fun h => ?_⟩
  have h2 := h intCon (PyVal.bool true)
  exact absurd h2 (by decide)

/-- Claim C4 (amended): over the declared `data_type` enumeration,
`_check_type` agrees with the spec's exact-type rule except that the
numeric kinds `integer` and `float` additionally accept booleans, because
Python `bool` is a subclass of `int`. -/
theorem c4_check_type (c : InputTypeConstraint) (v : PyVal)
    (h : c.data_type ∈ validDataTypes) :
    InputTypeConstraint.checkType c v =
      (TypeOkSpec c.data_type v ||
        ((c.data_type == "integer" || c.data_type == "float") && v.isBool)) := by
  simp only [validDataTypes, List.mem_cons, List.not_mem_nil, or_false] at h
  rcases h with h|h|h|h|h|h|h|h|h|h|h|h|h <;>
    cases v <;>
      simp [InputTypeConstraint.checkType, TypeOkSpec, h, PyVal.isStr, PyVal.isBool,
        PyVal.isInstInt, PyVal.isInstFloat, PyVal.isList, PyVal.isDict]

/-- Claim C4 witness: the amended theorem applied to the integer
constraint and the value `7`. -/
theorem c4_witness :
    InputTypeConstraint.checkType intCon (PyVal.int 7) =
      (TypeOkSpec intCon.data_type (PyVal.int 7) ||
        ((intCon.data_type == "integer" || intCon.data_type == "float")
          && (PyVal.int 7).isBool)) :=
  c4_check_type intCon (PyVal.int 7) (by decide)

/-- `_check_pattern` never lets an exception escape: whatever the engine
does, the result is an `Except.ok`. -/
theorem checkPatternE_isOk (re : RegexEngine) (c : InputTypeConstraint) (v : PyVal) :
    ∃ b, InputTypeConstraint.checkPatternE re c v = Except.ok b := by
  unfold InputTypeConstraint.checkPatternE
  repeat' split
  all_goals exact ⟨_, rfl⟩

/-- The body of `validate` (before the outer `try`) never produces an
exception, for every regex engine, constraint and value. -/
theorem validateBody_isOk (re : RegexEngine) (c : InputTypeConstraint) (v : PyVal) :
    ∃ b, InputTypeConstraint.validateBody re c v = Except.ok b := by
  obtain ⟨b, hb⟩ := checkPatternE_isOk re c v
  unfold InputTypeConstraint.validateBody
  rw [hb]
  repeat' split
  all_goals first
    | exact ⟨_, rfl⟩
    | simp_all

/-- The string-typed constraint with pattern `p` used in C10. -/
def patCon (p : String) : InputTypeConstraint :=
  ⟨"f", "string", true, Option.none, Option.none, some p,
   Option.none, Option.none, Option.none⟩

/-- Claim C10 (confirmed): constraint validation is total — for every
regex engine, constraint and value the check body returns a boolean
(`Except.ok`) rather than an exception, and in particular a pattern whose
compilation/matching raises is absorbed into a `false` verdict. -/
theorem c10_validate_total :
    (∀ (re : RegexEngine) (c : InputTypeConstraint) (v : PyVal),
      InputTypeConstraint.validateBody re c v =
        Except.ok (InputTypeConstraint.validate re c v)) ∧
    (∀ (re : RegexEngine) (p s : String), p ≠ "" → re p s = Except.error () →
      InputTypeConstraint.validate re (patCon p) (PyVal.str s) = false) := by
  constructor
  · intro re c v
    obtain ⟨b, hb⟩ := validateBody_isOk re c v
    rw [hb, InputTypeConstraint.validate, hb]
  · intro re p s hp hre
    have hpat : InputTypeConstraint.checkPatternE re (patCon p) (PyVal.str s) =
        Except.ok false := by
      unfold InputTypeConstraint.checkPatternE patCon
      simp [hp, hre]
    rw [InputTypeConstraint.validate, InputTypeConstraint.validateBody, hpat]
    simp [patCon, InputTypeConstraint.checkType, InputTypeConstraint.checkLength,
      PyVal.isNone, PyVal.pyLen]

/-- Claim C10 witness: a concrete always-raising engine and pattern. -/
theorem c10_witness :
    InputTypeConstraint.validate (fun _ _ => Except.error ()) (patCon "[")
      (PyVal.str "x") = false :=
  c10_validate_total.2 (fun _ _ => Except.error ()) "[" "x" (by decide) rfl

/-- helper: a string starting with a non-empty piece is non-empty. -/
theorem length_pos_of_left (a b : String) (h : 0 < a.length) :
    0 < (a ++ b).length := by
  rw [String.length_append]
  omega

/-- The allowed-values/fallback messages are non-empty. -/
theorem errLast_length_pos (c : InputTypeConstraint) (v : PyVal) :
    0 < (InputTypeConstraint.errLast c v).length := by
  unfold InputTypeConstraint.errLast
  split
  all_goals repeat apply length_pos_of_left
  all_goals decide

/-- The pattern/range tail of the message chain is non-empty. -/
theorem errTail_length_pos (re : RegexEngine) (c : InputTypeConstraint) (v : PyVal) :
    0 < (InputTypeConstraint.errTail re c v).length := by
  unfold InputTypeConstraint.errTail
  repeat' split
  all_goals try exact errLast_length_pos c v
  all_goals repeat apply length_pos_of_left
  all_goals decide

/-- The first-failure message chain of `get_error_message` always
produces a non-empty string. -/
theorem errChain_length_pos (re : RegexEngine) (c : InputTypeConstraint) (v : PyVal) :
    0 < (InputTypeConstraint.errChain re c v).length := by
  unfold InputTypeConstraint.errChain
  repeat' split
  all_goals try exact errTail_length_pos re c v
  all_goals repeat apply length_pos_of_left
  all_goals decide

/-- Claim C5 (confirmed): for every regex engine, constraint and value,
`get_error_message` is `None` exactly when `validate` is true, and every
failing validation yields a non-empty human-readable message. -/
theorem c5_error_message_round_trip :
    ∀ (re : RegexEngine) (c : InputTypeConstraint) (v : PyVal),
      (InputTypeConstraint.getErrorMessage re c v = Option.none ↔
        InputTypeConstraint.validate re c v = true) ∧
      (InputTypeConstraint.validate re c v = false →
        ∃ m, InputTypeConstraint.getErrorMessage re c v = some m ∧ 0 < m.length) := by
  intro re c v
  cases hv : InputTypeConstraint.validate re c v with
  | false =>
    refine ⟨by simp [InputTypeConstraint.getErrorMessage, hv], fun _ => ?_⟩
    exact ⟨InputTypeConstraint.errChain re c v,
      by simp [InputTypeConstraint.getErrorMessage, hv],
      errChain_length_pos re c v⟩
  | true =>
    refine ⟨by simp [InputTypeConstraint.getErrorMessage, hv], fun hf => ?_⟩
    exact Bool.noConfusion hf

/-- Claim C5 witness: a required string field against a missing value. -/
theorem c5_witness :
    ∃ m, InputTypeConstraint.getErrorMessage (fun _ _ => Except.ok true) intCon
      PyVal.none = some m ∧ 0 < m.length :=
  (c5_error_message_round_trip (fun _ _ => Except.ok true) intCon PyVal.none).2 rfl

/-- `CriterionMetric` (criterion.py lines 13-18).  Constructor calls in
`_extract_criteria_from_description` leave `threshold` at its default
`0.8`. -/
structure CriterionMetric : Type where
  name : String
  description : String
  weight : ℚ
  threshold : ℚ
deriving DecidableEq

/-- `OutputCriterion` (criterion.py lines 21-28): the quality bar.
`weights` is the per-criterion override dict. -/
structure OutputCriterion : Type where
  name : String
  description : String
  criteria : List CriterionMetric
  weights : List (String × ℚ)
  min_score : ℚ
  max_retries : Nat

/-- Python `str.lower()` (ASCII lowering suffices for the strings that
occur here), written over the character list so it evaluates
structurally. -/
def pyToLower (s : String) : String :=
  ⟨s.data.map Char.toLower⟩

/-- Whether the first character list is a prefix of the second. -/
def charsPrefix : List Char → List Char → Bool
  | [], _ => true
  | _ :: _, [] => false
  | a :: as, b :: bs => a == b && charsPrefix as bs

/-- Whether the first character list occurs inside the second. -/
def charsContains (needle : List Char) : List Char → Bool
  | [] => needle.isEmpty
  | c :: rest => charsPrefix needle (c :: rest) || charsContains needle rest

/-- Python `needle in haystack` on strings (substring containment). -/
def pySubstr (needle haystack : String) : Bool :=
  charsContains needle.data haystack.data

/-- Splitter for Python `str.split()`: cut at spaces, dropping empty
pieces; `acc` holds the current piece reversed. -/
def pySplitWsAux : List Char → List Char → List String
  | [], acc => if acc.isEmpty then [] else [⟨acc.reverse⟩]
  | c :: rest, acc =>
    if c = ' ' then
      if acc.isEmpty then pySplitWsAux rest []
      else (⟨acc.reverse⟩ : String) :: pySplitWsAux rest []
    else pySplitWsAux rest (c :: acc)

/-- Python `str.split()` with no argument (the metric names contain no
other whitespace characters). -/
def pySplitWs (s : String) : List String :=
  pySplitWsAux s.data []

/-- The `common_metrics` table of
`_extract_criteria_from_description` (criterion.py lines 41-50). -/
def commonMetrics : List (String × String) :=
  [("准确性", "输出内容是否准确无误"),
   ("完整性", "输出内容是否完整"),
   ("相关性", "输出内容是否与输入相关"),
   ("一致性", "输出内容是否一致"),
   ("清晰度", "输出内容是否清晰易懂"),
   ("专业性", "输出内容是否专业"),
   ("创新性", "输出内容是否有创新性"),
   ("实用性", "输出内容是否实用")]

namespace OutputCriterion

/-- `_extract_criteria_from_description` (criterion.py lines 36-71):
keyword matching against the lower-cased description, falling back to the
single default "总体质量" (overall quality) metric. -/
def extractCriteriaFromDescription (description : String) : List CriterionMetric :=
  let criteria := commonMetrics.filterMap (fun nd =>
    if (pySplitWs (pyToLower nd.1)).any (fun kw => pySubstr kw (pyToLower description))
    then some ⟨nd.1, nd.2, 1, 4/5⟩
    else Option.none)
  if criteria = [] then [⟨"总体质量", "整体输出质量评估", 1, 4/5⟩] else criteria

/-- The declared `__post_init__` hook (criterion.py lines 30-34): fill in
`criteria` from the description when the supplied list is empty. -/
def postInit (c : OutputCriterion) : OutputCriterion :=
  if c.criteria = [] then
    { c with criteria := extractCriteriaFromDescription c.description }
  else c

/-- Construction through pydantic `BaseModel.__init__`.  `OutputCriterion`
subclasses pydantic `BaseModel`, and pydantic never invokes a method named
`__post_init__` (that hook belongs to dataclasses), so the fields are
stored exactly as supplied and `postInit` never runs. -/
def pydanticConstruct (name description : String) (criteria : List CriterionMetric)
    (weights : List (String × ℚ)) (min_score : ℚ) (max_retries : Nat) :
    OutputCriterion :=
  ⟨name, description, criteria, weights, min_score, max_retries⟩

/-- `weights.get(criterion.name, criterion.weight)` (criterion.py line 83). -/
def effectiveWeight (c : OutputCriterion) (m : CriterionMetric) : ℚ :=
  match c.weights.lookup m.name with
  | some w => w
  | Option.none => m.weight

/-- The `total_weight` accumulator of `evaluate` (criterion.py lines
80-87), written as a mapped sum. -/
def totalWeight (c : OutputCriterion) : ℚ :=
  (c.criteria.map (fun m => effectiveWeight c m)).sum

/-- The `total_score` accumulator of `evaluate`: per-metric score times
effective weight.  `scoreOf` abstracts `_evaluate_criterion` for the
output and backend under evaluation (that helper is total: it catches
every exception and degrades to 0.5). -/
def totalScore (c : OutputCriterion) (scoreOf : CriterionMetric → ℚ) : ℚ :=
  (c.criteria.map (fun m => scoreOf m * effectiveWeight c m)).sum

/-- `evaluate` (criterion.py lines 73-96): 0.5 for an empty metric list
(`if not self.criteria: return 0.5`), else the weighted mean, or 0.0 when
the total weight is not positive. -/
def evaluateScore (c : OutputCriterion) (scoreOf : CriterionMetric → ℚ) : ℚ :=
  if c.criteria.isEmpty then 1/2
  else if 0 < totalWeight c then totalScore c scoreOf / totalWeight c
  else 0

end OutputCriterion

/-- Claim C3 (code bug): an `OutputCriterion` built with an empty metric
list keeps the empty list — pydantic `BaseModel` never calls the declared
`__post_init__` — and `evaluate` then returns the hard-coded default 0.5;
had the hook run, it would have produced exactly the one default
"总体质量" (overall quality) metric the claim and the dead code
describe. -/
theorem c3_post_init_never_runs :
    (OutputCriterion.pydanticConstruct "c" "summarize the input text" [] []
        (4/5) 3).criteria = [] ∧
    (OutputCriterion.pydanticConstruct "c" "summarize the input text" [] []
        (4/5) 3).evaluateScore (fun _ => 1) = 1/2 ∧
    (OutputCriterion.postInit
        (OutputCriterion.pydanticConstruct "c" "summarize the input text" [] []
          (4/5) 3)).criteria = [⟨"总体质量", "整体输出质量评估", 1, 4/5⟩] := by
  refine ⟨rfl, ?_, rfl⟩
  norm_num [OutputCriterion.evaluateScore, OutputCriterion.pydanticConstruct]

/-- Claim C6 (counterexample): with no metrics at all, `evaluate` returns
the 0.5 default, not the 0.0 the claim assigns to the zero-total-weight
case. -/
theorem c6_counterexample :
    (OutputCriterion.pydanticConstruct "c" "d" [] [] (4/5) 3).evaluateScore
        (fun _ => 1) = 1/2 ∧
    ¬ (OutputCriterion.pydanticConstruct "c" "d" [] [] (4/5) 3).evaluateScore
        (fun _ => 1) = 0 := by
  constructor
  · norm_num [OutputCriterion.evaluateScore, OutputCriterion.pydanticConstruct]
  · norm_num [OutputCriterion.evaluateScore, OutputCriterion.pydanticConstruct]

/-- Claim C6 (amended): for a non-empty metric list the final score is
the weighted mean of the per-metric scores under the effective weights
(override else metric weight), it is 0.0 when the total weight is not
positive, and it is the arithmetic mean whenever all effective weights
are equal and positive.  (With no metrics at all, `evaluate` instead
returns the 0.5 default.) -/
theorem c6_weighted_mean (c : OutputCriterion) (scoreOf : CriterionMetric → ℚ)
    (hne : c.criteria ≠ []) :
    (0 < c.totalWeight →
      c.evaluateScore scoreOf = c.totalScore scoreOf / c.totalWeight) ∧
    (¬ 0 < c.totalWeight → c.evaluateScore scoreOf = 0) ∧
    (∀ w : ℚ, 0 < w → (∀ m ∈ c.criteria, c.effectiveWeight m = w) →
      c.evaluateScore scoreOf =
        (c.criteria.map scoreOf).sum / (c.criteria.length : ℚ)) := by
  have hempty : c.criteria.isEmpty = false := by
    cases h : c.criteria with
    | nil => exact absurd h hne
    | cons a l => rfl
  refine ⟨?_, ?_, ?_⟩
  · intro hw
    simp [OutputCriterion.evaluateScore, hempty, hw]
  · intro hw
    simp [OutputCriterion.evaluateScore, hempty, hw]
  · intro w hw hall
    have hmapw : c.criteria.map (fun m => c.effectiveWeight m) =
        c.criteria.map (fun _ => w) := by
      apply List.map_congr_left
      intro m hm
      exact hall m hm
    have hsumconst : ∀ (l : List CriterionMetric),
        (l.map (fun _ => w)).sum = (l.length : ℚ) * w := by
      intro l
      induction l with
      | nil => simp
      | cons a t ih =>
        simp [ih]
        ring
    have htw : c.totalWeight = (c.criteria.length : ℚ) * w := by
      rw [OutputCriterion.totalWeight, hmapw, hsumconst]
    have hts : c.totalScore scoreOf = (c.criteria.map scoreOf).sum * w := by
      rw [OutputCriterion.totalScore]
      have : c.criteria.map (fun m => scoreOf m * c.effectiveWeight m) =
          c.criteria.map (fun m => scoreOf m * w) := by
        apply List.map_congr_left
        intro m hm
        rw [hall m hm]
      rw [this, ← List.sum_map_mul_right]
    have hlen : 0 < (c.criteria.length : ℚ) := by
      have : 0 < c.criteria.length := List.length_pos.mpr hne
      exact_mod_cast this
    have htwpos : 0 < c.totalWeight := by
      rw [htw]
      exact mul_pos hlen hw
    have hval : c.evaluateScore scoreOf = c.totalScore scoreOf / c.totalWeight := by
      simp [OutputCriterion.evaluateScore, hempty, htwpos]
    rw [hval, hts, htw]
    have hwne : w ≠ 0 := ne_of_gt hw
    have hlenne : (c.criteria.length : ℚ) ≠ 0 := ne_of_gt hlen
    field_simp
    ring

/-- Claim C6 witness: two metrics of equal weight 1; the score is the
plain average. -/
theorem c6_witness :
    (OutputCriterion.pydanticConstruct "c" "d"
        [⟨"准确性", "a", 1, 4/5⟩, ⟨"完整性", "b", 1, 4/5⟩] [] (4/5) 3).evaluateScore
        (fun m => if m.name = "准确性" then 4/5 else 3/5) =
      ((OutputCriterion.pydanticConstruct "c" "d"
        [⟨"准确性", "a", 1, 4/5⟩, ⟨"完整性", "b", 1, 4/5⟩] [] (4/5) 3).criteria.map
          (fun m => if m.name = "准确性" then (4:ℚ)/5 else 3/5)).sum /
        (((OutputCriterion.pydanticConstruct "c" "d"
          [⟨"准确性", "a", 1, 4/5⟩, ⟨"完整性", "b", 1, 4/5⟩] [] (4/5) 3).criteria.length : ℚ)) :=
  ((c6_weighted_mean _ _ (by decide)).2.2 1 (by norm_num) (by decide))

/-- Trace of one `generate_with_retry` run: the returned (`Except.ok`) or
raised (`Except.error`) outcome, the backoff sleeps performed in order,
and how many times the underlying `generate` was called. -/
structure RetryTrace (R : Type) : Type where
  result : Except String R
  sleeps : List Nat
  calls : Nat

/-- The loop of `generate_with_retry` (llm/base.py lines 73-87).  `gen i`
is the outcome of the single-shot `generate` on attempt `i`; `remaining`
counts the iterations left of `range(max_retries + 1)`.  A success
returns immediately; a failure on a non-final attempt sleeps `2^attempt`
and continues; a failure on the final attempt re-raises that exception.
An empty loop would fall through to the defensive
`raise last_exception or Exception("生成失败")` with no captured
exception. -/
def generateWithRetryGo {R : Type} (gen : Nat → Except String R) :
    Nat → Nat → RetryTrace R
  | _, 0 => ⟨Except.error "生成失败", [], 0⟩
  | attempt, remaining + 1 =>
    match gen attempt with
    | Except.ok x => ⟨Except.ok x, [], 1⟩
    | Except.error e =>
      match remaining with
      | 0 => ⟨Except.error e, [], 1⟩
      | r + 1 =>
        let t := generateWithRetryGo gen (attempt + 1) (r + 1)
        ⟨t.result, 2 ^ attempt :: t.sleeps, t.calls + 1⟩

/-- `generate_with_retry(prompt)` with `self.config.max_retries = m`:
`m + 1` loop iterations starting at attempt 0. -/
def generateWithRetry {R : Type} (gen : Nat → Except String R) (m : Nat) :
    RetryTrace R :=
  generateWithRetryGo gen 0 (m + 1)

/-- The loop calls `generate` at most `remaining` times. -/
theorem generateWithRetryGo_calls_le {R : Type} (gen : Nat → Except String R) :
    ∀ (remaining attempt : Nat),
      (generateWithRetryGo gen attempt remaining).calls ≤ remaining := by
  intro remaining
  induction remaining with
  | zero => intro attempt; simp [generateWithRetryGo]
  | succ r ih =>
    intro attempt
    rw [generateWithRetryGo]
    cases gen attempt with
    | ok x => simp
    | error e =>
      cases r with
      | zero => simp
      | succ r2 =>
        simp only []
        have := ih (attempt + 1)
        omega

/-- When every attempt in the window fails, the loop re-raises the last
exception, sleeps `2^attempt` after each non-final attempt, and calls
`generate` once per iteration. -/
theorem generateWithRetryGo_all_fail {R : Type} (gen : Nat → Except String R)
    (e : Nat → String) :
    ∀ (r attempt : Nat),
      (∀ i, attempt ≤ i → i ≤ attempt + r → gen i = Except.error (e i)) →
      generateWithRetryGo gen attempt (r + 1) =
        ⟨Except.error (e (attempt + r)),
         (List.range r).map (fun j => 2 ^ (attempt + j)), r + 1⟩ := by
  intro r
  induction r with
  | zero =>
    intro attempt h
    rw [generateWithRetryGo, h attempt le_rfl (by omega)]
    rfl
  | succ r ih =>
    intro attempt h
    rw [generateWithRetryGo, h attempt le_rfl (by omega)]
    have hrec := ih (attempt + 1) (fun i h1 h2 => h i (by omega) (by omega))
    simp only [hrec]
    have h1 : attempt + 1 + r = attempt + (r + 1) := by omega
    have h2 : (List.range (r + 1)).map (fun j => 2 ^ (attempt + j)) =
        2 ^ attempt :: (List.range r).map (fun j => 2 ^ (attempt + 1 + j)) := by
      rw [List.range_succ_eq_map, List.map_cons, List.map_map]
      congr 1
      apply List.map_congr_left
      intro j hj
      simp only [Function.comp_apply]
      exact congrArg (fun n => 2 ^ n) (by omega)
    rw [h1, h2]

/-- Claim C7 (confirmed): `generate_with_retry` makes at most
`max_retries + 1` calls to `generate`; when every attempt fails it
re-raises the last attempt's exception after sleeping `2^0, …,
2^(max_retries-1)` between attempts (one sleep after each failure except
the last). -/
theorem c7_generate_with_retry :
    (∀ (R : Type) (gen : Nat → Except String R) (m : Nat),
      (generateWithRetry gen m).calls ≤ m + 1) ∧
    (∀ (R : Type) (gen : Nat → Except String R) (m : Nat) (e : Nat → String),
      (∀ i, i ≤ m → gen i = Except.error (e i)) →
      generateWithRetry gen m =
        ⟨Except.error (e m), (List.range m).map (fun j => 2 ^ j), m + 1⟩) := by
  constructor
  · intro R gen m
    exact generateWithRetryGo_calls_le gen (m + 1) 0
  · intro R gen m e h
    have := generateWithRetryGo_all_fail gen e m 0 (fun i h1 h2 => h i (by omega))
    rw [generateWithRetry, this]
    simp

/-- Claim C7 witness: `max_retries = 1`, both attempts fail — the second
attempt's exception is raised, exactly one sleep (of `2^0 = 1` unit)
occurs, and `generate` ran twice. -/
theorem c7_witness :
    generateWithRetry
        (fun i => (Except.error (if i = 0 then "first" else "second") : Except String Unit)) 1 =
      ⟨Except.error "second", [1], 2⟩ := by
  have h := c7_generate_with_retry.2 Unit
    (fun i => Except.error (if i = 0 then "first" else "second")) 1
    (fun i => if i = 0 then "first" else "second")
    (fun i _ => rfl)
  rw [h]
  rfl

/-- The selection-relevant part of `LLMFactoryConfig` (factory.py lines
17-25).  Model-name/url plumbing does not influence control flow and is
not tracked. -/
structure LLMFactoryConfig : Type where
  preferred_mode : String
  api_key : Option String
  fallback_to_cloud : Bool

/-- The two concrete backend kinds a selector slot can hold
(`QwenLLM` for local Ollama, `QwenAPILLM` for the cloud API). -/
inductive LLMInstance : Type where
  | localQwen : LLMInstance
  | cloudQwen : LLMInstance
deriving DecidableEq

/-- `LLMFactory` mutable state (factory.py lines 31-35). -/
structure LLMFactoryState : Type where
  local_llm : Option LLMInstance
  cloud_llm : Option LLMInstance
  current_mode : Option String

/-- Outcomes of awaiting `health_check()` on each backend; `_check_*_health`
already maps exceptions and timeouts to `False`, so a Bool suffices. -/
structure HealthEnv : Type where
  localHealthy : Bool
  cloudHealthy : Bool

namespace LLMFactory

/-- `_check_local_health` (factory.py lines 109-122): `False` when no
instance exists, else the health-check outcome. -/
def checkLocalHealth (env : HealthEnv) (st : LLMFactoryState) : Bool :=
  match st.local_llm with
  | Option.none => false
  | some _ => env.localHealthy

/-- `_check_cloud_health` (factory.py lines 124-137). -/
def checkCloudHealth (env : HealthEnv) (st : LLMFactoryState) : Bool :=
  match st.cloud_llm with
  | Option.none => false
  | some _ => env.cloudHealthy

/-- `_create_local_llm` (factory.py lines 53-64): construct-or-reuse the
local instance, then require a passing health check; on success record
`current_mode = "local"`. -/
def createLocalLlm (env : HealthEnv) (st : LLMFactoryState) :
    Except String LLMInstance × LLMFactoryState :=
  let st1 :=
    match st.local_llm with
    | Option.none => { st with local_llm := some LLMInstance.localQwen }
    | some _ => st
  if checkLocalHealth env st1 then
    (Except.ok LLMInstance.localQwen, { st1 with current_mode := some "local" })
  else (Except.error "本地模型不可用", st1)

/-- `_create_cloud_llm` (factory.py lines 66-88): constructing the cloud
instance requires an API key; then require a passing health check; on
success record `current_mode = "cloud"`. -/
def createCloudLlm (cfg : LLMFactoryConfig) (env : HealthEnv) (st : LLMFactoryState) :
    Except String LLMInstance × LLMFactoryState :=
  match st.cloud_llm with
  | Option.none =>
    match cfg.api_key with
    | Option.none => (Except.error "云端模式需要API密钥", st)
    | some _ =>
      let st1 := { st with cloud_llm := some LLMInstance.cloudQwen }
      if checkCloudHealth env st1 then
        (Except.ok LLMInstance.cloudQwen, { st1 with current_mode := some "cloud" })
      else (Except.error "云端模型不可用", st1)
  | some _ =>
    if checkCloudHealth env st then
      (Except.ok LLMInstance.cloudQwen, { st with current_mode := some "cloud" })
    else (Except.error "云端模型不可用", st)

/-- `_create_auto_llm` (factory.py lines 90-107): try local; on failure
fall back to cloud when enabled, with the combined error when both fail. -/
def createAutoLlm (cfg : LLMFactoryConfig) (env : HealthEnv) (st : LLMFactoryState) :
    Except String LLMInstance × LLMFactoryState :=
  match createLocalLlm env st with
  | (Except.ok llm, st1) => (Except.ok llm, st1)
  | (Except.error _, st1) =>
    if cfg.fallback_to_cloud then
      match createCloudLlm cfg env st1 with
      | (Except.ok llm, st2) => (Except.ok llm, st2)
      | (Except.error _, st2) => (Except.error "本地和云端模型都不可用", st2)
    else (Except.error "本地模型不可用且未启用云端回退", st1)

/-- `create_llm` (factory.py lines 37-51): dispatch on the preferred
mode (`else` means `auto`). -/
def createLlm (cfg : LLMFactoryConfig) (env : HealthEnv) (st : LLMFactoryState) :
    Except String LLMInstance × LLMFactoryState :=
  if cfg.preferred_mode = "local" then createLocalLlm env st
  else if cfg.preferred_mode = "cloud" then createCloudLlm cfg env st
  else createAutoLlm cfg env st

/-- `get_current_mode` (factory.py lines 139-141). -/
def getCurrentMode (st : LLMFactoryState) : Option String :=
  st.current_mode

end LLMFactory

/-- Claim C9 (confirmed): in auto mode with fallback enabled and an API
key configured, when the local health check fails and the cloud health
check succeeds, `create_backend` returns the cloud backend and
`get_current_mode` then reports "cloud" — from any starting cache
state. -/
theorem c9_auto_falls_back_to_cloud (cfg : LLMFactoryConfig) (env : HealthEnv)
    (st : LLMFactoryState) (k : String)
    (hmode : cfg.preferred_mode = "auto") (hfb : cfg.fallback_to_cloud = true)
    (hkey : cfg.api_key = some k)
    (hlocal : env.localHealthy = false) (hcloud : env.cloudHealthy = true) :
    (LLMFactory.createLlm cfg env st).1 = Except.ok LLMInstance.cloudQwen ∧
    LLMFactory.getCurrentMode (LLMFactory.createLlm cfg env st).2 = some "cloud" := by
  rcases st with ⟨sl, sc, sm⟩
  cases sl <;> cases sc <;>
    simp [LLMFactory.createLlm, LLMFactory.createAutoLlm, LLMFactory.createLocalLlm,
      LLMFactory.createCloudLlm, LLMFactory.checkLocalHealth, LLMFactory.checkCloudHealth,
      LLMFactory.getCurrentMode, hmode, hfb, hkey, hlocal, hcloud]

/-- Claim C9 witness: a fresh selector, auto mode, key present, local
unhealthy, cloud healthy. -/
theorem c9_witness :
    (LLMFactory.createLlm ⟨"auto", some "k", true⟩ ⟨false, true⟩
        ⟨Option.none, Option.none, Option.none⟩).1 = Except.ok LLMInstance.cloudQwen ∧
    LLMFactory.getCurrentMode
        ((LLMFactory.createLlm ⟨"auto", some "k", true⟩ ⟨false, true⟩
          ⟨Option.none, Option.none, Option.none⟩).2) = some "cloud" :=
  c9_auto_falls_back_to_cloud ⟨"auto", some "k", true⟩ ⟨false, true⟩
    ⟨Option.none, Option.none, Option.none⟩ "k" rfl rfl rfl rfl rfl

/-- The `performance_metrics` dict of an Agent.  `__init__` (base.py
lines 48-53) creates only the first four keys; `reset_metrics` (lines
295-304) creates all six.  The `Option` fields model presence of the
`total_tokens_used` / `average_tokens_per_execution` keys: `+=` on a
missing key raises `KeyError`. -/
structure PerfMetrics : Type where
  total_executions : Nat
  successful_executions : Nat
  average_score : ℚ
  average_response_time : ℚ
  total_tokens_used : Option Nat
  average_tokens_per_execution : Option ℚ
deriving DecidableEq

/-- `performance_metrics` as `__init__` leaves it: the token keys are
absent. -/
def PerfMetrics.init : PerfMetrics :=
  ⟨0, 0, 0, 0, Option.none, Option.none⟩

/-- `performance_metrics` right after `reset_metrics`: all six keys
present. -/
def PerfMetrics.reset : PerfMetrics :=
  ⟨0, 0, 0, 0, some 0, some 0⟩

/-- `_update_performance_metrics` (base.py lines 263-279).  The dict is
mutated step by step; the read in
`performance_metrics['total_tokens_used'] += tokens_used` raises
`KeyError` when only `__init__`'s four keys exist, leaving the earlier
mutations in place.  Returns the metrics as mutated so far and the raised
exception, if any.  (The method divides by `total_executions`; `execute`
only calls it after incrementing that counter, so the divisor is ≥ 1.) -/
def updatePerformanceMetrics (min_score quality_score response_time : ℚ)
    (tokens_used : Nat) (m : PerfMetrics) : PerfMetrics × Option String :=
  let m1 :=
    if min_score ≤ quality_score then
      { m with successful_executions := m.successful_executions + 1 }
    else m
  let n : ℚ := (m1.total_executions : ℚ)
  let m2 := { m1 with average_score := (m1.average_score * (n - 1) + quality_score) / n }
  let m3 := { m2 with
    average_response_time := (m2.average_response_time * (n - 1) + response_time) / n }
  match m3.total_tokens_used with
  | Option.none => (m3, some "KeyError: total_tokens_used")
  | some t =>
    let t2 := t + tokens_used
    ({ m3 with total_tokens_used := some t2,
               average_tokens_per_execution := some ((t2 : ℚ) / n) },
     Option.none)

/-- The control-flow fields of `AgentConfig` (base.py lines 27-36).
`OutputTypeConstraint` lives in `app/core/constraint/output.py`, which is
not among the sources under check; only the names (hence emptiness) of
the output-constraint list affect the claims, so just the names are
kept. -/
structure AgentConfig : Type where
  input_constraints : List InputTypeConstraint
  output_constraint_names : List String
  output_criterion : OutputCriterion
  max_retries : Nat
  enable_auto_optimization : Bool

/-- The claim-relevant part of an `execution_history` record (base.py
lines 80-88). -/
structure ExecRecord : Type where
  quality_score : ℚ
  retry_count : Nat
  tokens_used : Nat

/-- The mutable state of an `AgentBase` (base.py lines 42-53). -/
structure AgentState : Type where
  status : String
  retry_count : Nat
  history : List ExecRecord
  metrics : PerfMetrics

/-- A freshly constructed Agent: idle, no retries, empty history,
`__init__` metrics. -/
def AgentState.init : AgentState :=
  ⟨"idle", 0, [], PerfMetrics.init⟩

/-- The outside world one `execute` call interacts with.
* `gen i`: outcome (`result.text`, or the raised exception) of the `i`-th
  `generate_with_retry` call of this execute — index 0 is the nominal
  attempt, index 1 the repair attempt.  (The repair path may additionally
  issue one `llm.generate` meta-call inside `_optimize_prompt`; its
  failure is absorbed into reusing the original prompt, so it carries no
  control flow and only candidate-output generations are indexed.)
* `quality_of`: the score `_evaluate_quality` assigns to an output; that
  helper catches every evaluation exception and returns 0.5, so it is a
  total function.
* `tokens_used`: `llm.get_token_usage()['total_tokens_used']`.
* `response_time`: the measured wall-clock delta for the record.
* `output_set_valid`: Modelled from the spec: abstracts
  `OutputConstraintSet.is_valid` of the missing
  `app/core/constraint/output.py` (spec §4.3 step 5); `_validate_output`
  only consults it when `output_constraints` is non-empty. -/
structure ExecEnv : Type where
  re : RegexEngine
  gen : Nat → Except String String
  quality_of : String → ℚ
  tokens_used : Nat
  response_time : ℚ
  output_set_valid : String → Bool

/-- The dict handed to the input constraint set by `_validate_input`
(base.py lines 117-124): a dict input is used as is, anything else is
fanned out to every constraint name. -/
def inputDictOf (constraints : List InputTypeConstraint) (input : PyVal) :
    List (String × PyVal) :=
  match input with
  | PyVal.dict kvs => kvs
  | _ => constraints.map (fun c => (c.name, input))

/-- `_validate_input` (base.py lines 110-128) as a pass/fail check: pass
when there are no constraints or the set validates. -/
def validateInputOk (re : RegexEngine) (constraints : List InputTypeConstraint)
    (input : PyVal) : Bool :=
  if constraints.isEmpty then true
  else InputConstraintSet.isValid re constraints (inputDictOf constraints input)

/-- The `ValueError` message `_validate_input` raises on failure. -/
def inputErrorMessage (re : RegexEngine) (constraints : List InputTypeConstraint)
    (input : PyVal) : String :=
  "输入验证失败: " ++ String.intercalate "; "
    (InputConstraintSet.getAllErrors re constraints (inputDictOf constraints input))

/-- `_validate_output` (base.py lines 130-148) as a pass/fail check:
immediate pass when the output-constraint list is empty, else the
(spec-modelled) output constraint set decides. -/
def validateOutputOk (cfg : AgentConfig) (env : ExecEnv) (output : String) : Bool :=
  if cfg.output_constraint_names.isEmpty then true
  else env.output_set_valid output

/-- Result of one `execute` call: what it returns or raises, the Agent
state afterwards, and how many candidate-output generations
(`generate_with_retry` calls) it performed. -/
structure ExecOutcome : Type where
  result : Except String String
  state : AgentState
  gen_calls : Nat

/-- `execute` (base.py lines 55-108) with the repair helper
`_optimize_and_retry` (lines 203-216).  Steps: set status busy and
increment `total_executions`; validate input (failure is terminal);
generate (attempt 0); validate output (terminal on failure); score;
append the history record; if the score is below `min_score` AND
`retry_count < max_retries`, increment `retry_count` and take the repair
path — which generates once more (attempt 1) and returns that text
directly, without re-scoring, without updating metrics, and without
resetting `retry_count` or the busy status; otherwise update the
performance metrics (whose `KeyError` on a fresh `__init__` dict is
caught by the outer handler: status becomes error and the exception
propagates), set status idle, reset `retry_count` to 0 and return the
output. -/
def AgentBase.execute (cfg : AgentConfig) (env : ExecEnv) (st : AgentState)
    (input : PyVal) : ExecOutcome :=
  let st := { st with
    status := "busy",
    metrics := { st.metrics with
      total_executions := st.metrics.total_executions + 1 } }
  if ¬ validateInputOk env.re cfg.input_constraints input then
    { result := Except.error (inputErrorMessage env.re cfg.input_constraints input),
      state := { st with status := "error" }, gen_calls := 0 }
  else
    match env.gen 0 with
    | Except.error e =>
      { result := Except.error e, state := { st with status := "error" },
        gen_calls := 1 }
    | Except.ok output =>
      if ¬ validateOutputOk cfg env output then
        { result := Except.error "输出验证失败",
          state := { st with status := "error" }, gen_calls := 1 }
      else
        let quality := env.quality_of output
        let st := { st with
          history := st.history ++
            [(⟨quality, st.retry_count, env.tokens_used⟩ : ExecRecord)] }
        if quality < cfg.output_criterion.min_score ∧
            st.retry_count < cfg.max_retries then
          let st := { st with retry_count := st.retry_count + 1 }
          match env.gen 1 with
          | Except.ok output2 =>
            { result := Except.ok output2, state := st, gen_calls := 2 }
          | Except.error e =>
            { result := Except.error e, state := { st with status := "error" },
              gen_calls := 2 }
        else
          match updatePerformanceMetrics cfg.output_criterion.min_score quality
              env.response_time env.tokens_used st.metrics with
          | (m2, some exc) =>
            { result := Except.error exc,
              state := { st with metrics := m2, status := "error" },
              gen_calls := 1 }
          | (m2, Option.none) =>
            { result := Except.ok output,
              state := { st with metrics := m2, status := "idle", retry_count := 0 },
              gen_calls := 1 }

/-- Agent configuration of the C1 scenario: no input/output constraints,
`max_retries = 2`, criterion `min_score = 0.8`. -/
def lowCfg : AgentConfig :=
  ⟨[], [], ⟨"q", "d", [⟨"总体质量", "m", 1, 4/5⟩], [], 4/5, 3⟩, 2, true⟩

/-- Environment where every generation succeeds and every output scores
0.3 (below `min_score = 0.8`). -/
def lowEnv : ExecEnv :=
  ⟨fun _ _ => Except.ok true,
   fun i => Except.ok (if i = 0 then "out0" else "out1"),
   fun _ => 3/10, 5, 1, fun _ => true⟩

/-- Environment where every generation succeeds and every output scores
0.9 (above `min_score = 0.8`). -/
def goodEnv : ExecEnv :=
  ⟨fun _ _ => Except.ok true,
   fun i => Except.ok (if i = 0 then "out0" else "out1"),
   fun _ => 9/10, 5, 1, fun _ => true⟩

/-- An idle Agent whose metrics dict was rebuilt by `reset_metrics` (all
six keys present). -/
def resetState : AgentState := ⟨"idle", 0, [], PerfMetrics.reset⟩

/-- Claim C1 (counterexample): in the claimed scenario (`max_retries = 2`,
every attempt scoring 0.3) a single `execute` performs exactly 2
generation attempts, not 3: `_optimize_and_retry` returns its single
regeneration directly, without re-scoring, so the retry loop never
iterates.  The rest of the scenario holds: the last-generated output is
returned and `total_executions` rises by exactly 1. -/
theorem c1_counterexample :
    (AgentBase.execute lowCfg lowEnv AgentState.init (PyVal.str "hi")).gen_calls = 2 ∧
    ¬ (AgentBase.execute lowCfg lowEnv AgentState.init (PyVal.str "hi")).gen_calls = 3 ∧
    (AgentBase.execute lowCfg lowEnv AgentState.init (PyVal.str "hi")).result =
      Except.ok "out1" ∧
    (AgentBase.execute lowCfg lowEnv AgentState.init
      (PyVal.str "hi")).state.metrics.total_executions = 1 := by
  have hq : ((3 : ℚ)/10) < 4/5 := by norm_num
  refine ⟨?_, ?_, ?_, ?_⟩ <;>
    simp [AgentBase.execute, lowCfg, lowEnv, AgentState.init, PerfMetrics.init,
      validateInputOk, validateOutputOk, hq]

/-- Claim C1 (amended): with `max_retries ≥ 1` and the first attempt
scoring below `min_score`, a single `execute` performs exactly 2
generation attempts — the nominal one plus one repair generation whose
output is returned without re-scoring, regardless of how large
`max_retries` is — returns that repair output, and increments
`total_executions` by exactly 1. -/
theorem c1_repair_path (cfg : AgentConfig) (env : ExecEnv) (st : AgentState)
    (input : PyVal) (t0 t1 : String)
    (hin : cfg.input_constraints = []) (hout : cfg.output_constraint_names = [])
    (hrc : st.retry_count = 0) (hmr : 1 ≤ cfg.max_retries)
    (hg0 : env.gen 0 = Except.ok t0) (hg1 : env.gen 1 = Except.ok t1)
    (hq : env.quality_of t0 < cfg.output_criterion.min_score) :
    (AgentBase.execute cfg env st input).gen_calls = 2 ∧
    (AgentBase.execute cfg env st input).result = Except.ok t1 ∧
    (AgentBase.execute cfg env st input).state.metrics.total_executions =
      st.metrics.total_executions + 1 := by
  have h2 : st.retry_count < cfg.max_retries := by omega
  refine ⟨?_, ?_, ?_⟩ <;>
    simp [AgentBase.execute, validateInputOk, validateOutputOk, hin, hout,
      hg0, hg1, hq, h2]

/-- Claim C1 witness: the amended theorem at the concrete scenario. -/
theorem c1_witness :
    (AgentBase.execute lowCfg lowEnv AgentState.init (PyVal.str "hi")).gen_calls = 2 ∧
    (AgentBase.execute lowCfg lowEnv AgentState.init (PyVal.str "hi")).result =
      Except.ok "out1" ∧
    (AgentBase.execute lowCfg lowEnv AgentState.init
        (PyVal.str "hi")).state.metrics.total_executions =
      AgentState.init.metrics.total_executions + 1 :=
  c1_repair_path lowCfg lowEnv AgentState.init (PyVal.str "hi") "out0" "out1"
    rfl rfl rfl (by decide) rfl rfl (by norm_num [lowEnv, lowCfg])

/-- Claim C8 (counterexample): an `execute` that returns through the
repair path leaves `retry_count = 1`, not 0 — `execute` never resets the
counter at its start and the repair return path skips the reset. -/
theorem c8_counterexample :
    (AgentBase.execute lowCfg lowEnv AgentState.init
      (PyVal.str "hi")).state.retry_count = 1 ∧
    ¬ (AgentBase.execute lowCfg lowEnv AgentState.init
      (PyVal.str "hi")).state.retry_count = 0 ∧
    (AgentBase.execute lowCfg lowEnv AgentState.init (PyVal.str "hi")).result =
      Except.ok "out1" := by
  have hq : ((3 : ℚ)/10) < 4/5 := by norm_num
  refine ⟨?_, ?_, ?_⟩ <;>
    simp [AgentBase.execute, lowCfg, lowEnv, AgentState.init, PerfMetrics.init,
      validateInputOk, validateOutputOk, hq]

/-- Claim C8 (amended): `retry_count` is reset to 0 only on the normal
completion path (score accepted and metrics updated); it is not touched
at the start of `execute`, and an `execute` returning through the repair
path leaves `retry_count` at its incremented value `old + 1`. -/
theorem c8_retry_count_paths :
    (∀ (cfg : AgentConfig) (env : ExecEnv) (st : AgentState) (input : PyVal)
        (t0 t1 : String),
      cfg.input_constraints = [] → cfg.output_constraint_names = [] →
      env.gen 0 = Except.ok t0 → env.gen 1 = Except.ok t1 →
      env.quality_of t0 < cfg.output_criterion.min_score →
      st.retry_count < cfg.max_retries →
      (AgentBase.execute cfg env st input).state.retry_count = st.retry_count + 1 ∧
      (∃ s, (AgentBase.execute cfg env st input).result = Except.ok s)) ∧
    (∀ (cfg : AgentConfig) (env : ExecEnv) (st : AgentState) (input : PyVal)
        (t0 : String) (tt : Nat),
      cfg.input_constraints = [] → cfg.output_constraint_names = [] →
      env.gen 0 = Except.ok t0 →
      cfg.output_criterion.min_score ≤ env.quality_of t0 →
      st.metrics.total_tokens_used = some tt →
      (AgentBase.execute cfg env st input).state.retry_count = 0 ∧
      (AgentBase.execute cfg env st input).result = Except.ok t0) := by
  constructor
  · intro cfg env st input t0 t1 hin hout hg0 hg1 hq h2
    refine ⟨?_, ⟨t1, ?_⟩⟩ <;>
      simp [AgentBase.execute, validateInputOk, validateOutputOk, hin, hout,
        hg0, hg1, hq, h2]
  · intro cfg env st input t0 tt hin hout hg0 hq htok
    have hnot : ¬ (env.quality_of t0 < cfg.output_criterion.min_score) := not_lt.mpr hq
    refine ⟨?_, ?_⟩ <;>
      simp [AgentBase.execute, validateInputOk, validateOutputOk, hin, hout,
        hg0, hnot, hq, updatePerformanceMetrics, htok]

/-- Claim C8 witness: the normal path on a reset-metrics Agent ends with
`retry_count = 0`. -/
theorem c8_witness :
    (AgentBase.execute lowCfg goodEnv resetState
      (PyVal.str "hi")).state.retry_count = 0 ∧
    (AgentBase.execute lowCfg goodEnv resetState (PyVal.str "hi")).result =
      Except.ok "out0" :=
  c8_retry_count_paths.2 lowCfg goodEnv resetState (PyVal.str "hi") "out0" 0
    rfl rfl rfl (by norm_num [lowEnv, lowCfg, goodEnv]) rfl

/-- Claim C2 (code bug): on a freshly constructed Agent the first
accepting `execute` raises `KeyError: 'total_tokens_used'` out of
`_update_performance_metrics` — `__init__` creates only four of the six
metric keys — instead of updating the metrics and returning the output;
once all six keys exist (after `reset_metrics`), the update follows the
incremental-mean law the claim states. -/
theorem c2_metrics_update :
    ((AgentBase.execute lowCfg goodEnv AgentState.init (PyVal.str "hi")).result =
        Except.error "KeyError: total_tokens_used" ∧
      (AgentBase.execute lowCfg goodEnv AgentState.init
        (PyVal.str "hi")).state.status = "error") ∧
    (∀ (min_score q rt : ℚ) (tok : Nat) (m : PerfMetrics) (t : Nat),
      m.total_tokens_used = some t → 1 ≤ m.total_executions →
      (updatePerformanceMetrics min_score q rt tok m).2 = Option.none ∧
      (updatePerformanceMetrics min_score q rt tok m).1.average_score =
        (m.average_score * ((m.total_executions : ℚ) - 1) + q) /
          (m.total_executions : ℚ) ∧
      (updatePerformanceMetrics min_score q rt tok m).1.average_response_time =
        (m.average_response_time * ((m.total_executions : ℚ) - 1) + rt) /
          (m.total_executions : ℚ) ∧
      (updatePerformanceMetrics min_score q rt tok m).1.total_tokens_used =
        some (t + tok) ∧
      (updatePerformanceMetrics min_score q rt tok m).1.average_tokens_per_execution =
        some (((t + tok : Nat) : ℚ) / (m.total_executions : ℚ)) ∧
      (updatePerformanceMetrics min_score q rt tok m).1.successful_executions =
        m.successful_executions + (if min_score ≤ q then 1 else 0)) := by
  constructor
  · have hq : ¬ ((9 : ℚ)/10 < 4/5) := by norm_num
    have hq2 : ((4 : ℚ)/5) ≤ 9/10 := by norm_num
    refine ⟨?_, ?_⟩ <;>
      simp [AgentBase.execute, lowCfg, goodEnv, AgentState.init, PerfMetrics.init,
        validateInputOk, validateOutputOk, updatePerformanceMetrics, hq, hq2]
  · intro min_score q rt tok m t htok hn
    by_cases hcase : min_score ≤ q <;>
      simp [updatePerformanceMetrics, hcase, htok]

/-- Metrics of an Agent after one reset and one counted execution, used
to witness the incremental-mean law. -/
def wMetrics : PerfMetrics := ⟨1, 0, 0, 0, some 0, some 0⟩

/-- Claim C2 witness: the incremental-mean law at concrete numbers. -/
theorem c2_witness :
    (updatePerformanceMetrics (4/5) (9/10) 1 5 wMetrics).2 = Option.none ∧
    (updatePerformanceMetrics (4/5) (9/10) 1 5 wMetrics).1.average_score =
      (wMetrics.average_score * ((wMetrics.total_executions : ℚ) - 1) + 9/10) /
        (wMetrics.total_executions : ℚ) ∧
    (updatePerformanceMetrics (4/5) (9/10) 1 5 wMetrics).1.average_response_time =
      (wMetrics.average_response_time * ((wMetrics.total_executions : ℚ) - 1) + 1) /
        (wMetrics.total_executions : ℚ) ∧
    (updatePerformanceMetrics (4/5) (9/10) 1 5 wMetrics).1.total_tokens_used =
      some (0 + 5) ∧
    (updatePerformanceMetrics (4/5) (9/10) 1 5 wMetrics).1.average_tokens_per_execution =
      some (((0 + 5 : Nat) : ℚ) / (wMetrics.total_executions : ℚ)) ∧
    (updatePerformanceMetrics (4/5) (9/10) 1 5 wMetrics).1.successful_executions =
      wMetrics.successful_executions + (if (4 : ℚ)/5 ≤ 9/10 then 1 else 0) :=
  c2_metrics_update.2 (4/5) (9/10) 1 5 wMetrics 0 rfl (by decide)
